import Mathlib

/-!
Verification of the YDA4 backend's RAG context assembly and content
acquisition logic against its specification.

The Python sources are shallowly embedded: pure functions become Lean
functions over Nat, Int, Rat, String and List; Python exceptions become
explicit error values of type PyError; external collaborators (the
vector store, the Supabase tables, the LangChain splitter, the
youtube-transcript library, the embedding model) become parameters, so
the theorems quantify over their possible behaviours.

Python float arithmetic note: the source multiplies integer character
counts by the float constants 0.8 and 0.65.  These products are modelled
by exact rational arithmetic.  For every context window reachable
through the model capability table (32000, 40000, 256000 and the default
4096) the double-precision results of int(total * 0.8), mic * 0.65,
comparisons against mic * 0.65 at integer lengths, and
int((mic * 0.65) // 1000) all coincide with the exact rational values,
so the embedding is faithful on the whole reachable input space.
Because a fractional budget is compared only against integer lengths and
floored after division by 1000, every use of the budget in the source is
captured exactly by integer arithmetic on 100 times the budget; the
definitions below use that integer encoding (kept executable on
purpose), and bridge lemmas restate them with rational floors.
-/

namespace YDA4

/-- Python-style error outcomes used across the embedding. -/
inductive PyError where
  | typeError
  | valueError
  | runtimeError
  deriving DecidableEq, Repr

/-! ### app/backend/config/model_config.py -/

/-- Embedding of the dict MODEL_CONTEXT_WINDOWS (model name to total
context window in tokens), from model_config.py lines 10-14. -/
def MODEL_CONTEXT_WINDOWS : List (String × Nat) :=
  [("gemma3:1b", 32000), ("qwen3:1.7b", 40000), ("ministral-3:3b", 256000)]

/-- Default fallback for unknown models (model_config.py line 17). -/
def DEFAULT_CONTEXT_WINDOW : Nat := 4096

/-- Keys of the model capability table, for stating unknown-model facts. -/
def model_table_keys : List String := MODEL_CONTEXT_WINDOWS.map Prod.fst

/-- Embedding of get_model_context_window (model_config.py lines 23-33):
MODEL_CONTEXT_WINDOWS.get(model_name, DEFAULT_CONTEXT_WINDOW).  A dict
lookup with a default, hence total — it never throws. -/
def get_model_context_window (model_name : String) : Nat :=
  match MODEL_CONTEXT_WINDOWS.find? (fun p => p.1 == model_name) with
  | some p => p.2
  | none => DEFAULT_CONTEXT_WINDOW

/-- Embedding of get_max_input_tokens (model_config.py lines 36-47):
int(total * INPUT_RESERVE_RATIO) with INPUT_RESERVE_RATIO = 0.8
(line 20).  int() truncates toward zero, i.e. floors the nonnegative
product, so the value is total * 8 / 10 in Nat arithmetic (see the
float note in the header). -/
def get_max_input_tokens (model_name : String) : Nat :=
  get_model_context_window model_name * 8 / 10

/-- Embedding of get_max_input_chars (model_config.py lines 50-63):
max_tokens * 4, the 4-characters-per-token estimate. -/
def get_max_input_chars (model_name : String) : Nat :=
  get_max_input_tokens model_name * 4

/-! ### Context budget and dynamic k (main.py, chat_with_ollama) -/

/-- One hundred times the context character budget of main.py lines 393
and 459, max_context_chars = get_max_input_chars(model_name) * 0.65.
The true budget is this value divided by 100; scaling by 100 keeps the
fractional budget in exact integer arithmetic. -/
def context_char_budget_x100 (model_name : String) : Nat :=
  get_max_input_chars model_name * 65

/-- The context character budget itself, as an exact rational, for use
in theorem statements. -/
def context_char_budget (model_name : String) : ℚ :=
  (get_max_input_chars model_name : ℚ) * (65 / 100)

/-- Embedding of the budget comparison at main.py line 460:
len(enhanced_context) > max_context_chars, encoded by cross
multiplication with the denominator 100. -/
def exceeds_budget (len : Nat) (model_name : String) : Bool :=
  decide (context_char_budget_x100 model_name < 100 * len)

/-- Embedding of the dynamic retrieval size, main.py line 394:
dynamic_k = min(20, max(5, int(max_context_chars // 1000))).  The inner
value int((mic * 65 / 100) // 1000) equals mic * 65 / 100000 in Nat
arithmetic. -/
def dynamic_k (model_name : String) : Nat :=
  min 20 (max 5 (context_char_budget_x100 model_name / 100000))

/-! ### chat_with_ollama (main.py lines 374-528): retrieval, citations,
budget enforcement and prompt construction.

The vector store search (main.py line 398, vector_db.search with
k = dynamic_k) and the sources-table title query (line 413) are external
collaborators; their outcomes are parameters of type Except.  A Python
dict is an association list; source ids are primary keys of the sources
table, so the query returns at most one row per id and find? lookup
matches dict lookup. -/

/-- One retrieved chunk as chat_with_ollama consumes it:
doc['page_content'], metadata.get('source_id'), metadata.get('source').
An absent metadata key is none. -/
structure SearchResult where
  page_content : String
  source_id : Option String
  source : Option String
  deriving DecidableEq, Repr

/-- One value of the citation map source_map: title and content
(main.py lines 430-433). -/
structure Citation where
  title : String
  content : String
  deriving DecidableEq, Repr

/-- Python truthiness of an optional string: None and the empty string
are falsy. -/
def py_truthy : Option String → Bool
  | none => false
  | some s => !s.isEmpty

/-- Python dict lookup on an association list. -/
def dict_get (d : List (String × String)) (k : String) : Option String :=
  (d.find? (fun p => p.1 == k)).map Prod.snd

/-- Embedding of main.py lines 401-407: the set of truthy source_id
values of the retrieved chunks (insertion-ordered, deduplicated). -/
def collect_source_ids (results : List SearchResult) : List String :=
  results.foldl (fun acc doc =>
    match doc.source_id with
    | some sid => if !sid.isEmpty && !acc.contains sid then acc ++ [sid] else acc
    | none => acc) []

/-- Embedding of main.py lines 409-417: the source_titles_map built from
the sources-table query; if the query raises, the inner handler leaves
the map empty. -/
def source_titles_map
    (titles_outcome : Except PyError (List (String × String))) :
    List (String × String) :=
  match titles_outcome with
  | .ok rows => rows
  | .error _ => []

/-- Embedding of the loop at main.py lines 419-438: for chunk number
start, start+1, ... produce the source_map entry (key str(i)) paired
with the context part "[i] Source: title\ncontent".  The title comes
from source_titles_map with the fallback label of line 427. -/
def citation_entries (start : Nat) (results : List SearchResult)
    (titles : List (String × String)) : List ((String × Citation) × String) :=
  match results with
  | [] => []
  | doc :: rest =>
    let sid := doc.source_id.getD "unknown"
    let title := (dict_get titles sid).getD
      ("Unknown Source (" ++ doc.source.getD "unknown" ++ ")")
    ((toString start, ⟨title, doc.page_content⟩),
      "[" ++ toString start ++ "] Source: " ++ title ++ "\n" ++ doc.page_content)
      :: citation_entries (start + 1) rest titles

/-- The citation map source_map accumulated by the loop (keys are the
bracket numbers as strings, starting at "1"). -/
def build_source_map (results : List SearchResult)
    (titles : List (String × String)) : List (String × Citation) :=
  (citation_entries 1 results titles).map Prod.fst

/-- The context_parts list accumulated by the loop. -/
def build_context_parts (results : List SearchResult)
    (titles : List (String × String)) : List String :=
  (citation_entries 1 results titles).map Prod.snd

/-- Embedding of main.py line 440: "\n\n".join(context_parts). -/
def vector_context (results : List SearchResult)
    (titles : List (String × String)) : String :=
  String.intercalate "\n\n" (build_context_parts results titles)

/-- Embedding of main.py lines 386-454: the retrieval phase.  Returns
(enhanced_context, source_map).  On a search error or an empty result
list, the caller-supplied context is used when truthy, otherwise the
context stays None; source_map stays empty in both degraded cases. -/
def assemble_context (search_outcome : Except PyError (List SearchResult))
    (titles_outcome : Except PyError (List (String × String)))
    (context : Option String) :
    Option String × List (String × Citation) :=
  match search_outcome with
  | .error _ => (if py_truthy context then context else none, [])
  | .ok results =>
    if results.isEmpty then (if py_truthy context then context else none, [])
    else (some (vector_context results (source_titles_map titles_outcome)),
          build_source_map results (source_titles_map titles_outcome))

/-- The truncation marker of main.py line 461. -/
def truncation_marker : String := "\n\n... [Context truncated due to length]"

/-- Embedding of the slice enhanced_context[:max_context_chars] at
main.py line 461.  max_context_chars is a Python float (an int times
0.65), and CPython raises TypeError (slice indices must be integers or
None or have an __index__ method) for every float slice index, even a
whole-numbered one, so this operation raises unconditionally. -/
def py_slice_float (s : String) (q : ℚ) : Except PyError String :=
  .error .typeError

/-- Embedding of main.py lines 459-461: if len(enhanced_context) exceeds
the budget, slice to the float budget (which raises TypeError) and
append the truncation marker; otherwise keep the context unchanged. -/
def apply_budget (ctx : String) (model_name : String) :
    Except PyError String :=
  if exceeds_budget ctx.length model_name then
    (py_slice_float ctx (context_char_budget model_name)).map
      (fun t => t ++ truncation_marker)
  else .ok ctx

/-- The RAG prompt of main.py lines 464-479, built around the bounded
context and the user question. -/
def rag_prompt (enhanced_context message : String) : String :=
  "RELEVANT CONTENT FROM USER\x27S SOURCES:\n\n" ++ enhanced_context ++
  "\n\n---\n\nUSER QUESTION: " ++ message ++
  "\n\nINSTRUCTIONS:\n- Answer the question using ONLY the information provided in the content above\n- Not all provided sources may be relevant - only cite those that actually help answer the question\n- Cite your sources using [1], [2], etc. when referencing specific information\n- If none of the sources are relevant, clearly state that the question cannot be answered from the available content\n- If the content doesn\x27t fully answer the question, explain what you CAN answer based on available sources and what information is missing\n- When multiple sources discuss the same topic, compare and synthesize the information\n- Be conversational but accurate"

/-- The no-context prompt of main.py lines 494-496. -/
def no_context_prompt (message : String) : String :=
  "USER QUESTION: " ++ message ++
  "\n\nI don\x27t have any relevant sources in your library to answer this question. Please upload podcasts, videos, or audio files that contain information about this topic."

/-- Embedding of main.py lines 457-496: pick the prompt by the
truthiness of enhanced_context, enforcing the budget on the truthy
branch. -/
def build_prompt (enhanced : Option String) (model_name message : String) :
    Except PyError String :=
  match enhanced with
  | some ctx =>
    if ctx.isEmpty then .ok (no_context_prompt message)
    else (apply_budget ctx model_name).map (fun c => rag_prompt c message)
  | none => .ok (no_context_prompt message)

/-- The context-and-prompt phase of chat_with_ollama (everything before
the HTTP call to the model service): returns the prompt and the
citation map, or the Python error that escapes to the outer handler
(HTTP 500). -/
def chat_with_ollama_phase (message model_name : String)
    (search_outcome : Except PyError (List SearchResult))
    (titles_outcome : Except PyError (List (String × String)))
    (context : Option String) :
    Except PyError (String × List (String × Citation)) :=
  let ec := assemble_context search_outcome titles_outcome context
  (build_prompt ec.1 model_name message).map (fun p => (p, ec.2))

deriving instance DecidableEq for Except

/-- Doubling helper to build long concrete strings whose lengths are
established by lemma rather than by deep evaluation. -/
def str_double : Nat → String → String
  | 0, s => s
  | n + 1, s => str_double n (s ++ s)

/-- A concrete 8704-character string, longer than the 8517.6-character
context budget of any model outside the capability table. -/
def big_context : String := str_double 10 "aaaaaaaa" ++ str_double 6 "aaaaaaaa"

/-! ### app/backend/services/transcript_fetcher.py

The youtube-transcript-api library is an external collaborator.  Its
transcript listing for a video is modelled as a list of available
transcripts; find_manually_created_transcript /
find_generated_transcript / find_transcript follow the library's
contract: each scans the requested language codes in order,
find_transcript preferring a manually created transcript over a
generated one for each language, and raising (here: none) when nothing
matches. -/

/-- One available transcript of a video: language code, whether it is
auto-generated, and the text entries its fetch() returns. -/
structure AvailableTranscript where
  language_code : String
  is_generated : Bool
  entries : List String
  deriving DecidableEq, Repr

/-- Library behaviour: first transcript of the requested generation
kind whose language is scanned in the given order. -/
def find_transcript_of_kind (generated : Bool)
    (tl : List AvailableTranscript) (langs : List String) :
    Option AvailableTranscript :=
  langs.findSome? (fun l =>
    tl.find? (fun t => t.language_code == l && t.is_generated == generated))

/-- Library find_manually_created_transcript. -/
def find_manually_created_transcript (tl : List AvailableTranscript)
    (langs : List String) : Option AvailableTranscript :=
  find_transcript_of_kind false tl langs

/-- Library find_generated_transcript. -/
def find_generated_transcript (tl : List AvailableTranscript)
    (langs : List String) : Option AvailableTranscript :=
  find_transcript_of_kind true tl langs

/-- Library find_transcript: for each language in order, a manually
created transcript is preferred over a generated one. -/
def find_transcript (tl : List AvailableTranscript) (langs : List String) :
    Option AvailableTranscript :=
  langs.findSome? (fun l =>
    match tl.find? (fun t => t.language_code == l && t.is_generated == false) with
    | some t => some t
    | none => tl.find? (fun t => t.language_code == l && t.is_generated == true))

/-- The fixed language list of transcript_fetcher.py line 82. -/
def fallback_languages : List String :=
  ["en", "es", "fr", "de", "it", "pt", "ru", "ja", "ko", "zh-Hans", "zh-Hant"]

/-- Embedding of transcript_fetcher.py line 88:
" ".join(entry['text'] for entry in transcript_data). -/
def join_entries (t : AvailableTranscript) : String :=
  String.intercalate " " t.entries

/-- The nested try/except ladder of transcript_fetcher.py lines 69-84:
manual English captions, then auto-generated English captions, then
find_transcript over the fixed language list; each failure falls to the
next attempt and a final NoTranscriptFound is caught by the outer
handler (none). -/
def select_transcript (tl : List AvailableTranscript) :
    Option (AvailableTranscript × String) :=
  match find_manually_created_transcript tl ["en"] with
  | some t => some (t, "youtube_manual_transcript")
  | none =>
    match find_generated_transcript tl ["en"] with
    | some t => some (t, "youtube_auto_transcript")
    | none =>
      match find_transcript tl fallback_languages with
      | some t => some (t, "youtube_transcript_" ++ t.language_code)
      | none => none

/-- Embedding of TranscriptFetcher.get_youtube_transcript
(transcript_fetcher.py lines 50-107).  video_id abstracts
extract_youtube_video_id(url) (none when no URL pattern matched);
listing abstracts YouTubeTranscriptApi.list_transcripts(video_id),
whose raised errors (TranscriptsDisabled, NoTranscriptFound,
VideoUnavailable, anything else) are all caught and turned into None.
On success the result is (joined transcript text, source tag). -/
def get_youtube_transcript (video_id : Option String)
    (listing : Except PyError (List AvailableTranscript)) :
    Option (String × String) :=
  match video_id with
  | none => none
  | some _ =>
    match listing with
    | .error _ => none
    | .ok tl => (select_transcript tl).map (fun p => (join_entries p.1, p.2))

/-- Embedding of process_youtube steps 1-2 (main.py lines 583-609):
transcription starts as None; when get_youtube_transcript returned a
result, its transcript is assigned; then line 603 re-checks
if not transcription: — so a missing fetch result AND a fetched
transcript that is the empty string (falsy) both make
download_youtube_audio and transcribe_audio run (their combined output
abstracted as whisper_transcript).  The boolean records whether the
audio downloader was invoked. -/
def acquire_transcription (fetch_result : Option (String × String))
    (whisper_transcript : String) : String × Bool :=
  match fetch_result with
  | some r => if r.1.isEmpty then (whisper_transcript, true) else (r.1, false)
  | none => (whisper_transcript, true)

/-! ### app/backend/services/text_splitter.py -/

/-- The whitespace characters stripped by Python str.strip() with no
arguments: the full Py_UNICODE_ISSPACE set (identical to the str.isspace
set), namely tab through carriage return, the ASCII separator controls
1c-1f, space, next-line 85, no-break space a0, ogham space 1680, the
en/em and related spaces 2000-200a, line and paragraph separators
2028-2029, narrow no-break space 202f, mathematical space 205f and
ideographic space 3000. -/
def py_whitespace : List Char :=
  ['\t', '\n', '\x0b', '\x0c', '\r', '\x1c', '\x1d', '\x1e', '\x1f', ' ',
   '\x85', '\xa0', '\u1680', '\u2000', '\u2001', '\u2002', '\u2003',
   '\u2004', '\u2005', '\u2006', '\u2007', '\u2008', '\u2009', '\u200a',
   '\u2028', '\u2029', '\u202f', '\u205f', '\u3000']

/-- Whether a character is Python whitespace. -/
def py_is_space (c : Char) : Bool := py_whitespace.contains c

/-- Python str.strip(): drop leading and trailing whitespace. -/
def py_strip (s : String) : String :=
  String.mk (((s.data.dropWhile py_is_space).reverse.dropWhile py_is_space).reverse)

/-- Embedding of TextSplitter.split_text (text_splitter.py lines 76-87):
the LangChain RecursiveCharacterTextSplitter is an external collaborator
modelled as the parameter base_split; the method returns
[chunk for chunk in chunks if chunk.strip()], keeping exactly the chunks
whose stripped text is truthy (non-empty). -/
def split_text (base_split : String → List String) (text : String) :
    List String :=
  (base_split text).filter (fun chunk => !(py_strip chunk).isEmpty)

/-! ### app/backend/db/supabase_vector_db.py -/

/-- A row of the document_chunks table as add_texts inserts it
(supabase_vector_db.py lines 79-86).  Metadata dicts are passed through
untouched, so their type is a parameter; chunk_metadata is none for the
Python empty dict chosen when no metadata list was supplied. -/
structure StoredChunk (μ : Type) where
  user_id : String
  source_id : String
  content : String
  embedding : List Int
  chunk_metadata : Option μ
  chunk_index : Nat
  deriving DecidableEq, Repr

/-- Embedding of SupabaseVectorDB.add_texts (supabase_vector_db.py
lines 49-94).  embed_documents abstracts the embedding model; db is the
stored chunk list for this user, returned unchanged when the function
raises (first component) together with the raised error (second
component).  The length check at lines 63-64 runs before the embedding
call at line 72 and before the insert at line 90. -/
def add_texts {μ : Type} (embed_documents : List String → List (List Int))
    (db : List (StoredChunk μ)) (texts : List String) (source_id : String)
    (user_id : String) (metadata : List μ) :
    List (StoredChunk μ) × Option PyError :=
  if !metadata.isEmpty && metadata.length != texts.length then
    (db, some .valueError)
  else if texts.isEmpty then (db, none)
  else
    let embeddings := embed_documents texts
    let chunks := ((texts.zip embeddings).enum).map (fun e =>
      { user_id := user_id, source_id := source_id, content := e.2.1,
        embedding := e.2.2, chunk_metadata := metadata[e.1]?,
        chunk_index := e.1 })
    (db ++ chunks, none)

/-! ### The chat endpoint (main.py lines 825-846) and user preferences
(services/user_preferences.py) -/

/-- The models users may store as their preference
(user_preferences.py lines 11-24); update_user_preferences rejects
anything else, so stored preferences range over this list. -/
def AVAILABLE_MODELS : List String :=
  ["gemma3:1b", "gemma3:4b", "gemma3:12b", "gemma3:27b",
   "qwen3:1.7b", "qwen3:4b", "qwen3:8b", "qwen3:14b", "qwen3:30b",
   "llama3.2:1b", "llama3.2:3b", "llama3:8b"]

/-- Embedding of the try/except block at main.py lines 835-840:
load_preferences abstracts UserPreferencesService.get_user_preferences;
its result dict is read with
preferences.get('preferred_model', 'gemma3:1b'), and a raised load
error also falls back to "gemma3:1b". -/
def preferred_model_of
    (load_preferences : Except PyError (List (String × String))) : String :=
  match load_preferences with
  | .ok prefs => (dict_get prefs "preferred_model").getD "gemma3:1b"
  | .error _ => "gemma3:1b"

/-- Embedding of the model selection of the chat endpoint (main.py
lines 832-841): request_model is request.model (the Pydantic field
defaults to "llama3.2:1b" but callers may send null or any string).
The condition is Python's
not model_to_use or model_to_use == "llama3.2:1b"; on that branch the
loaded preference is used, otherwise the explicitly requested model
(the none case of getD is unreachable there, since a none request is
falsy). -/
def chat_model_to_use (request_model : Option String)
    (load_preferences : Except PyError (List (String × String))) : String :=
  if !(py_truthy request_model) || request_model == some "llama3.2:1b" then
    preferred_model_of load_preferences
  else request_model.getD ""

/-! ## Theorems -/

/-! Bridge lemmas between the integer encoding and rational floors. -/

/-- Floor of a quotient of natural casts is natural division. -/
theorem floor_natCast_div (a c : ℕ) : ⌊(a : ℚ) / (c : ℚ)⌋ = ((a / c : ℕ) : ℤ) := by
  have h := Rat.floor_intCast_div_natCast (a : ℤ) c
  rw [show (((a : ℤ) : ℚ)) = (a : ℚ) by norm_cast] at h
  rw [h, ← Int.ofNat_ediv]

/-- The scaled integer budget agrees with the rational budget. -/
theorem context_char_budget_eq (m : String) :
    context_char_budget m = (context_char_budget_x100 m : ℚ) / 100 := by
  unfold context_char_budget context_char_budget_x100
  push_cast
  ring

/-- The budget comparison agrees with the rational comparison used in
the source. -/
theorem exceeds_budget_iff (len : Nat) (m : String) :
    exceeds_budget len m = true ↔ (len : ℚ) > context_char_budget m := by
  rw [exceeds_budget, decide_eq_true_iff, context_char_budget_eq, gt_iff_lt,
    div_lt_iff₀ (by norm_num : (0:ℚ) < 100)]
  constructor
  · intro h
    calc (context_char_budget_x100 m : ℚ) < ((100 * len : ℕ) : ℚ) := by exact_mod_cast h
    _ = (len : ℚ) * 100 := by push_cast; ring
  · intro h
    have : (context_char_budget_x100 m : ℚ) < ((100 * len : ℕ) : ℚ) := by
      calc (context_char_budget_x100 m : ℚ) < (len : ℚ) * 100 := h
      _ = ((100 * len : ℕ) : ℚ) := by push_cast; ring
    exact_mod_cast this

/-- The integer form of int((mic * 0.65) // 1000). -/
theorem budget_div_1000_eq (m : String) :
    (context_char_budget_x100 m / 100000 : ℕ) =
      Int.toNat ⌊context_char_budget m / 1000⌋ := by
  have h1 : context_char_budget m / 1000 =
      (context_char_budget_x100 m : ℚ) / ((100000 : ℕ) : ℚ) := by
    rw [context_char_budget_eq]
    push_cast
    ring
  rw [h1, floor_natCast_div, Int.toNat_natCast]

/-- The integer form of int(total * 0.8). -/
theorem max_input_tokens_eq_floor (m : String) :
    (get_max_input_tokens m : ℤ) =
      ⌊(get_model_context_window m : ℚ) * (8 / 10)⌋ := by
  have h1 : (get_model_context_window m : ℚ) * (8 / 10) =
      ((get_model_context_window m * 8 : ℕ) : ℚ) / ((10 : ℕ) : ℚ) := by
    push_cast
    ring
  rw [h1, floor_natCast_div, get_max_input_tokens]

/-- A model name absent from the capability table gets the default
context window. -/
theorem get_model_context_window_of_not_mem {m : String}
    (hm : m ∉ model_table_keys) :
    get_model_context_window m = DEFAULT_CONTEXT_WINDOW := by
  rw [get_model_context_window]
  have hnone : MODEL_CONTEXT_WINDOWS.find? (fun p => p.1 == m) = none := by
    rw [List.find?_eq_none]
    intro x hx hbeq
    have hx1 : x.1 ∈ model_table_keys := List.mem_map.mpr ⟨x, hx, rfl⟩
    have hxm : x.1 = m := by simpa using hbeq
    exact hm (hxm ▸ hx1)
  rw [hnone]

/-- C3: for every model name string, the dynamic retrieval size k of
chat_with_ollama equals clamp(floor(maxInputChars(model) * 0.65 / 1000),
5, 20); it is at least 5, at most 20, and never 0. -/
theorem claim_C3 : ∀ m : String,
    dynamic_k m =
      min 20 (max 5 (Int.toNat ⌊(get_max_input_chars m : ℚ) * (65 / 100) / 1000⌋)) ∧
    5 ≤ dynamic_k m ∧ dynamic_k m ≤ 20 ∧ 0 < dynamic_k m := by
  intro m
  have hb : (get_max_input_chars m : ℚ) * (65 / 100) = context_char_budget m := rfl
  refine ⟨?_, ?_, ?_, ?_⟩
  · rw [hb, ← budget_div_1000_eq]
    rfl
  · exact le_min (by norm_num) (le_max_left 5 _)
  · exact min_le_left _ _
  · exact lt_of_lt_of_le (by norm_num) (le_min (by norm_num) (le_max_left 5 _))

/-- C4: for every model name, get_max_input_chars equals
floor(get_model_context_window(model) * 0.8) * 4; for the known model
gemma3:1b (window 32000) it is 102400, and for any name absent from the
capability table (default window 4096) it is 13104. -/
theorem claim_C4 : ∀ m : String,
    (get_max_input_chars m : ℤ) =
      ⌊(get_model_context_window m : ℚ) * (8 / 10)⌋ * 4 ∧
    get_max_input_chars "gemma3:1b" = 102400 ∧
    (m ∉ model_table_keys → get_max_input_chars m = 13104) := by
  intro m
  refine ⟨?_, by decide, ?_⟩
  · rw [get_max_input_chars, Nat.cast_mul, max_input_tokens_eq_floor]
    norm_num
  · intro hm
    rw [get_max_input_chars, get_max_input_tokens,
      get_model_context_window_of_not_mem hm]
    rfl

/-- Witness for C4 at the concrete unknown model name "mystery:7b". -/
theorem claim_C4_witness : get_max_input_chars "mystery:7b" = 13104 :=
  (claim_C4 "mystery:7b").2.2 (by decide)

/-- C5: a model name absent from the capability table maps to the
documented default constant 4096 (the lookup is total, so it never
throws), and a name present in the table maps to the table's value. -/
theorem claim_C5 :
    (∀ m : String, m ∉ model_table_keys →
      get_model_context_window m = 4096) ∧
    ∀ p ∈ MODEL_CONTEXT_WINDOWS, get_model_context_window p.1 = p.2 := by
  constructor
  · intro m hm
    exact get_model_context_window_of_not_mem hm
  · intro p hp
    simp only [ MODEL_CONTEXT_WINDOWS, List.mem_cons, List.not_mem_nil,
      or_false] at hp
    rcases hp with rfl | rfl | rfl <;> rfl

/-- Witness for C5 at a concrete unknown name and a concrete table
entry. -/
theorem claim_C5_witness :
    get_model_context_window "not-a-model" = 4096 ∧
    get_model_context_window "qwen3:1.7b" = 40000 :=
  ⟨claim_C5.1 "not-a-model" (by decide),
   claim_C5.2 ("qwen3:1.7b", 40000) (by decide)⟩

/-! ## Helper lemmas for the chat pipeline and acquisition claims -/

/-- Length of the doubling helper. -/
theorem str_double_length (n : Nat) (s : String) :
    (str_double n s).length = 2 ^ n * s.length := by
  induction n generalizing s with
  | zero => simp [str_double]
  | succ n ih =>
    rw [str_double, ih, String.length_append, pow_succ]
    ring

/-- The concrete long string has 8704 characters. -/
theorem big_context_length : big_context.length = 8704 := by
  have h8 : "aaaaaaaa".length = 8 := rfl
  rw [big_context, String.length_append, str_double_length, str_double_length, h8]
  norm_num

/-- The concrete long string is not empty. -/
theorem big_context_ne_empty : big_context.isEmpty = false := by
  by_contra h
  rw [Bool.not_eq_false] at h
  have h2 := (String.isEmpty_iff big_context).mp h
  have h3 := congrArg String.length h2
  rw [big_context_length] at h3
  simp at h3

/-- Joining a one-element list leaves the element unchanged. -/
theorem intercalate_singleton (sep a : String) :
    String.intercalate sep [a] = a := rfl

/-- The keys of the citation entries starting at any index are the
consecutive numbers rendered as strings. -/
theorem citation_entries_keys (results : List SearchResult)
    (titles : List (String × String)) : ∀ start : Nat,
    (citation_entries start results titles).map (fun e => e.1.1) =
      (List.range results.length).map (fun i => toString (start + i)) := by
  induction results with
  | nil => intro start; simp [citation_entries]
  | cons doc rest ih =>
    intro start
    rw [citation_entries]
    simp only [List.map_cons, List.length_cons, List.range_succ_eq_map,
      List.map_map]
    rw [ih (start + 1)]
    refine List.cons_eq_cons.mpr ⟨by simp, ?_⟩
    apply List.map_congr_left
    intro i hi
    simp [Function.comp]
    congr 1
    omega

/-- Unpacking a successful findSome?. -/
theorem mem_of_findSome?_eq_some {α β : Type} {f : α → Option β}
    {l : List α} {b : β} (h : l.findSome? f = some b) :
    ∃ a ∈ l, f a = some b := by
  induction l with
  | nil => simp [List.findSome?] at h
  | cons x xs ih =>
    rw [List.findSome?_cons] at h
    cases hx : f x with
    | some v =>
      rw [hx] at h
      exact ⟨x, List.mem_cons_self x xs, by rw [hx]; exact h⟩
    | none =>
      rw [hx] at h
      obtain ⟨a, ha, hfa⟩ := ih h
      exact ⟨a, List.mem_cons_of_mem x ha, hfa⟩

/-- A transcript found by find_transcript belongs to the listing. -/
theorem find_transcript_mem {tl : List AvailableTranscript}
    {langs : List String} {t : AvailableTranscript}
    (h : find_transcript tl langs = some t) : t ∈ tl := by
  obtain ⟨l, _, hfl⟩ := mem_of_findSome?_eq_some h
  cases hm : tl.find? (fun u => u.language_code == l && u.is_generated == false) with
  | some u =>
    rw [hm] at hfl
    cases hfl
    exact List.mem_of_find?_eq_some hm
  | none =>
    rw [hm] at hfl
    exact List.mem_of_find?_eq_some hfl

/-- A transcript found by the kind-specific search belongs to the
listing and has the requested generation kind. -/
theorem find_transcript_of_kind_mem {g : Bool} {tl : List AvailableTranscript}
    {langs : List String} {t : AvailableTranscript}
    (h : find_transcript_of_kind g tl langs = some t) :
    t ∈ tl ∧ t.is_generated = g := by
  obtain ⟨l, _, hfl⟩ := mem_of_findSome?_eq_some h
  refine ⟨List.mem_of_find?_eq_some hfl, ?_⟩
  have hp := List.find?_some hfl
  simp at hp
  exact hp.2

/-- A selected transcript belongs to the listing. -/
theorem select_transcript_mem {tl : List AvailableTranscript}
    {t : AvailableTranscript} {tag : String}
    (h : select_transcript tl = some (t, tag)) : t ∈ tl := by
  rw [select_transcript] at h
  cases h1 : find_manually_created_transcript tl ["en"] with
  | some u =>
    rw [h1] at h
    cases h
    exact (find_transcript_of_kind_mem h1).1
  | none =>
    rw [h1] at h
    cases h2 : find_generated_transcript tl ["en"] with
    | some u =>
      rw [h2] at h
      cases h
      exact (find_transcript_of_kind_mem h2).1
    | none =>
      rw [h2] at h
      cases h3 : find_transcript tl fallback_languages with
      | some u =>
        rw [h3] at h
        cases h
        exact find_transcript_mem h3
      | none => rw [h3] at h; cases h

/-- A listing containing any transcript in a supported language makes
the selection succeed. -/
theorem select_transcript_isSome {tl : List AvailableTranscript}
    (h : ∃ t ∈ tl, t.language_code ∈ fallback_languages) :
    (select_transcript tl).isSome := by
  obtain ⟨t0, ht0, hlang⟩ := h
  rw [select_transcript]
  cases h1 : find_manually_created_transcript tl ["en"] with
  | some u => simp
  | none =>
    cases h2 : find_generated_transcript tl ["en"] with
    | some u => simp
    | none =>
      cases h3 : find_transcript tl fallback_languages with
      | some u => simp
      | none =>
        exfalso
        rw [find_transcript, List.findSome?_eq_none_iff] at h3
        have h4 := h3 t0.language_code hlang
        cases hm : tl.find?
            (fun u => u.language_code == t0.language_code && u.is_generated == false) with
        | some u => rw [hm] at h4; cases h4
        | none =>
          rw [hm] at h4
          cases hg : t0.is_generated with
          | false =>
            rw [List.find?_eq_none] at hm
            exact hm t0 ht0 (by simp [hg])
          | true =>
            rw [List.find?_eq_none] at h4
            exact h4 t0 ht0 (by simp [hg])

/-- A listing containing a manually created English transcript makes the
selection pick a manual English transcript with the manual tag. -/
theorem select_transcript_manual_en {tl : List AvailableTranscript}
    (h : ∃ t ∈ tl, t.language_code = "en" ∧ t.is_generated = false) :
    ∃ t, select_transcript tl = some (t, "youtube_manual_transcript") ∧
      t.language_code = "en" ∧ t.is_generated = false := by
  have hsome : (find_manually_created_transcript tl ["en"]).isSome := by
    rw [find_manually_created_transcript, find_transcript_of_kind]
    rw [List.findSome?_isSome_iff]
    obtain ⟨t0, ht0, hen, hgen⟩ := h
    refine ⟨"en", by simp, ?_⟩
    rw [List.find?_isSome]
    exact ⟨t0, ht0, by simp [hen, hgen]⟩
  obtain ⟨t, ht⟩ := Option.isSome_iff_exists.mp hsome
  have hp := find_transcript_of_kind_mem ht
  obtain ⟨l, hl, hfl⟩ := mem_of_findSome?_eq_some ht
  have hlen : l = "en" := by simpa using hl
  subst hlen
  have hpred := List.find?_some hfl
  simp at hpred
  refine ⟨t, ?_, hpred.1, hpred.2⟩
  rw [select_transcript, ht]

/-- Stripping a string whose characters are all whitespace yields the
empty string. -/
theorem py_strip_eq_empty_of_all_space {l : List Char}
    (h : ∀ c ∈ l, py_is_space c = true) :
    py_strip (String.mk l) = "" := by
  rw [py_strip]
  have h1 : l.dropWhile py_is_space = [] := List.dropWhile_eq_nil_iff.mpr h
  simp [h1]

/-! ## Claims C1, C2 and C6 (chat_with_ollama) -/

/-- C1: the claim states that the context string passed into the prompt
never exceeds contextCharBudget = maxInputChars(model) * 0.65 and that
applied truncation leaves the marker at the end.  The code instead
evaluates enhanced_context[:max_context_chars] with a float slice index
whenever the assembled context exceeds the budget, raising TypeError, so
no truncated context is ever produced: at the concrete failing input
below (model "llama3.2:1b", budget 8517.6 characters, one retrieved
chunk of 8704 characters) chat_with_ollama reaches its outer handler
with TypeError instead of passing a truncated context to the prompt. -/
theorem claim_C1 :
    chat_with_ollama_phase "What was discussed?" "llama3.2:1b"
      (.ok [⟨big_context, some "s1", some "youtube"⟩])
      (.ok [("s1", "My Podcast")]) none = .error .typeError := by
  have hvc : vector_context [⟨big_context, some "s1", some "youtube"⟩]
      [("s1", "My Podcast")] =
      "[1] Source: My Podcast\n" ++ big_context := by
    rw [vector_context, build_context_parts]
    simp [citation_entries, dict_get, intercalate_singleton]
    rfl
  have hlen : ("[1] Source: My Podcast\n" ++ big_context).length = 8727 := by
    rw [String.length_append, big_context_length]
    decide
  have hex : exceeds_budget ("[1] Source: My Podcast\n".length + big_context.length)
      "llama3.2:1b" = true := by
    rw [big_context_length]; decide
  have hne : ("[1] Source: My Podcast\n" ++ big_context).isEmpty = false := by
    by_contra h
    rw [Bool.not_eq_false] at h
    have h2 := (String.isEmpty_iff _).mp h
    have h3 := congrArg String.length h2
    rw [hlen] at h3
    simp at h3
  simp [chat_with_ollama_phase, assemble_context, source_titles_map, hvc,
    build_prompt, hne, apply_budget, hex, py_slice_float, Except.map]

/-- C2 counterexample: with two retrieved chunks that share the single
source id "s1", the returned citation map has two entries — one per
chunk — while the set of distinct source ids has one element, refuting
the claim that the map size equals the number of distinct source ids. -/
theorem claim_C2_counterexample :
    (collect_source_ids
      [⟨"chunk one text", some "s1", some "youtube"⟩,
       ⟨"chunk two text", some "s1", some "youtube"⟩]).length = 1 ∧
    (build_source_map
      [⟨"chunk one text", some "s1", some "youtube"⟩,
       ⟨"chunk two text", some "s1", some "youtube"⟩] [("s1", "Show")]).length = 2 ∧
    (2 : Nat) ≠ 1 := by
  refine ⟨by decide, by decide, by decide⟩

/-- C2 (amended): for every non-empty retrieval result, the citation map
source_map has exactly one entry per retrieved chunk — its size equals
the number of retrieved chunks, not the number of distinct source ids —
and its keys are the bracket numbers "1", "2", ... in retrieval order,
so chunks sharing one source id keep separate entries and separate
bracket numbers. -/
theorem claim_C2 : ∀ (results : List SearchResult)
    (titles : List (String × String)),
    (build_source_map results titles).length = results.length ∧
    (build_source_map results titles).map Prod.fst =
      (List.range results.length).map (fun i => toString (i + 1)) := by
  intro results titles
  have hkeys := citation_entries_keys results titles 1
  have hlen : (citation_entries 1 results titles).length = results.length := by
    have h := congrArg List.length hkeys
    simpa using h
  constructor
  · simp [build_source_map, hlen]
  · rw [build_source_map, List.map_map]
    have hcomp : (Prod.fst ∘ Prod.fst :
        (String × Citation) × String → String) = fun e => e.1.1 := rfl
    rw [hcomp, hkeys]
    apply List.map_congr_left
    intro i hi
    congr 1
    omega

/-- C6: the claim states that when retrieval raises or returns nothing,
chat_with_ollama falls back to the caller-supplied context (or no
context) and always still constructs a prompt and returns a response.
The fallback itself behaves as claimed, but when the caller-supplied
fallback context exceeds the character budget the truncation slip of C1
raises TypeError, so no prompt is constructed: at the concrete input
below (search raised, fallback context of 8704 characters, model
"llama3.2:1b" with budget 8517.6) the phase ends in TypeError instead
of a prompt. -/
theorem claim_C6 :
    assemble_context (.error .runtimeError) (.ok []) (some big_context) =
      (some big_context, []) ∧
    chat_with_ollama_phase "q" "llama3.2:1b"
      (.error .runtimeError) (.ok []) (some big_context) = .error .typeError := by
  constructor
  · simp [assemble_context, py_truthy, big_context_ne_empty]
  · have hex : exceeds_budget big_context.length "llama3.2:1b" = true := by
      rw [big_context_length]; decide
    simp [chat_with_ollama_phase, assemble_context, build_prompt, py_truthy,
      big_context_ne_empty, apply_budget, hex, py_slice_float, Except.map]

/-! ## Claim C7 (transcript acquisition) -/

/-- C7 counterexample: a video whose platform exposes author-provided
(manually created) captions only in Arabic, a language outside the fixed
fallback list, makes get_youtube_transcript return None, and ingestion
then invokes the audio downloader — refuting the claim that the
downloader is never invoked when author captions exist. -/
theorem claim_C7_counterexample :
    (∃ t ∈ [(⟨"ar", false, ["caption text"]⟩ : AvailableTranscript)],
      t.is_generated = false) ∧
    get_youtube_transcript (some "dQw4w9WgXcQ")
      (.ok [⟨"ar", false, ["caption text"]⟩]) = none ∧
    (acquire_transcription
      (get_youtube_transcript (some "dQw4w9WgXcQ")
        (.ok [⟨"ar", false, ["caption text"]⟩])) "whisper output").2 = true := by
  refine ⟨by decide, by decide, by decide⟩

/-- C7 (amended): for every video whose caption listing contains a
transcript in at least one language of the fixed fallback list
(en, es, fr, de, it, pt, ru, ja, ko, zh-Hans, zh-Hant), ingestion
returns the fetched captions — the entry texts joined with single
spaces but otherwise verbatim — and prefers manually created English
captions (tagged youtube_manual_transcript) whenever they exist; when
the joined caption text is non-empty (truthy), the audio downloader and
speech-to-text engine are never invoked for that source.  Captions only
in an unsupported language (see the counterexample), or a fetched
transcript that joins to the empty string, instead fall through to the
audio downloader via the re-check at main.py line 603. -/
theorem claim_C7 : ∀ (vid : String) (tl : List AvailableTranscript)
    (whisper : String),
    (∃ t ∈ tl, t.language_code ∈ fallback_languages) →
    ∃ t tag, select_transcript tl = some (t, tag) ∧ t ∈ tl ∧
      get_youtube_transcript (some vid) (.ok tl) =
        some (String.intercalate " " t.entries, tag) ∧
      (String.intercalate " " t.entries ≠ "" →
        acquire_transcription (get_youtube_transcript (some vid) (.ok tl))
          whisper = (String.intercalate " " t.entries, false)) ∧
      ((∃ t2 ∈ tl, t2.language_code = "en" ∧ t2.is_generated = false) →
        t.is_generated = false ∧ t.language_code = "en" ∧
        tag = "youtube_manual_transcript") := by
  intro vid tl whisper hsupported
  obtain ⟨p, hp⟩ := Option.isSome_iff_exists.mp (select_transcript_isSome hsupported)
  obtain ⟨t, tag⟩ := p
  have hget : get_youtube_transcript (some vid) (.ok tl) =
      some (String.intercalate " " t.entries, tag) := by
    rw [get_youtube_transcript]
    rw [hp]
    rfl
  refine ⟨t, tag, hp, select_transcript_mem hp, hget, ?_, ?_⟩
  · intro hns
    have hje : (String.intercalate " " t.entries).isEmpty = false := by
      cases hjs : (String.intercalate " " t.entries).isEmpty
      · rfl
      · exact absurd ((String.isEmpty_iff _).mp hjs) hns
    rw [hget]
    simp [acquire_transcription, hje]
  · intro hmanual
    obtain ⟨t2, h2sel, h2en, h2gen⟩ := select_transcript_manual_en hmanual
    rw [hp] at h2sel
    cases h2sel
    exact ⟨h2gen, h2en, rfl⟩

/-- Witness for C7 at a concrete listing with one manual English
transcript of two entries. -/
theorem claim_C7_witness :
    ∃ t tag,
      select_transcript [(⟨"en", false, ["hello", "world"]⟩ : AvailableTranscript)] =
        some (t, tag) ∧
      t ∈ [(⟨"en", false, ["hello", "world"]⟩ : AvailableTranscript)] ∧
      get_youtube_transcript (some "dQw4w9WgXcQ")
        (.ok [⟨"en", false, ["hello", "world"]⟩]) =
        some (String.intercalate " " t.entries, tag) ∧
      (String.intercalate " " t.entries ≠ "" →
        acquire_transcription
          (get_youtube_transcript (some "dQw4w9WgXcQ")
            (.ok [⟨"en", false, ["hello", "world"]⟩])) "w" =
          (String.intercalate " " t.entries, false)) ∧
      ((∃ t2 ∈ [(⟨"en", false, ["hello", "world"]⟩ : AvailableTranscript)],
          t2.language_code = "en" ∧ t2.is_generated = false) →
        t.is_generated = false ∧ t.language_code = "en" ∧
        tag = "youtube_manual_transcript") :=
  claim_C7 "dQw4w9WgXcQ" [⟨"en", false, ["hello", "world"]⟩] "w"
    ⟨⟨"en", false, ["hello", "world"]⟩, by decide, by decide⟩

/-! ## Claim C8 (text splitter) -/

/-- C8: TextSplitter.split_text returns exactly the chunks of the
underlying recursive splitter whose stripped text is non-empty, and
hence every returned chunk contains at least one non-whitespace
character. -/
theorem claim_C8 : ∀ (base_split : String → List String) (text chunk : String),
    split_text base_split text =
      (base_split text).filter (fun c => !(py_strip c).isEmpty) ∧
    (chunk ∈ split_text base_split text →
      chunk ∈ base_split text ∧ ∃ ch ∈ chunk.data, py_is_space ch = false) := by
  intro base_split text chunk
  refine ⟨rfl, ?_⟩
  intro hmem
  rw [split_text, List.mem_filter] at hmem
  refine ⟨hmem.1, ?_⟩
  by_contra hno
  push_neg at hno
  have hall : ∀ c ∈ chunk.data, py_is_space c = true := by
    intro c hc
    have hc2 := hno c hc
    simpa using hc2
  have hempty : py_strip chunk = "" := by
    have hs := py_strip_eq_empty_of_all_space hall
    simpa using hs
  have h2 := hmem.2
  rw [hempty] at h2
  exact absurd h2 (by decide)

/-- Witness for C8 on a splitter returning one real chunk and one
whitespace-only chunk. -/
theorem claim_C8_witness :
    "ab" ∈ (fun t : String => [t, "  "]) "ab" ∧
    ∃ ch ∈ ("ab" : String).data, py_is_space ch = false :=
  (claim_C8 (fun t => [t, "  "]) "ab" "ab").2 (by decide)

/-! ## Claim C9 (vector store adapter) -/

/-- C9: calling add_texts with a non-empty metadata list whose length
differs from the texts list raises ValueError, leaves the stored chunk
set unchanged, and — since the conclusion holds for every embedding
function — computes no embedding before failing. -/
theorem claim_C9 : ∀ (μ : Type) (embed_documents : List String → List (List Int))
    (db : List (StoredChunk μ)) (texts : List String) (source_id user_id : String)
    (metadata : List μ),
    metadata ≠ [] → metadata.length ≠ texts.length →
    add_texts embed_documents db texts source_id user_id metadata =
      (db, some PyError.valueError) := by
  intro μ embed db texts sid uid md hne hlen
  rw [add_texts, if_pos]
  rw [Bool.and_eq_true, Bool.not_eq_true', bne_iff_ne]
  exact ⟨List.isEmpty_eq_false.mpr hne, hlen⟩

/-- Witness for C9: one text with two metadata entries fails atomically
on an empty store. -/
theorem claim_C9_witness :
    add_texts (fun _ => ([] : List (List Int))) ([] : List (StoredChunk Nat))
      ["a"] "s" "u" [1, 2] = ([], some PyError.valueError) :=
  claim_C9 Nat (fun _ => []) [] ["a"] "s" "u" [1, 2] (by decide) (by decide)

/-! ## Claim C10 (chat endpoint model selection) -/

/-- C10 counterexample: "llama3.2:1b" is itself a storable preference
(it is in AVAILABLE_MODELS, which update_user_preferences accepts), and
a caller who explicitly requests "llama3.2:1b" while it is the stored
preferred model does get exactly that model — refuting the claim that an
explicit "llama3.2:1b" request never has that exact model used. -/
theorem claim_C10_counterexample :
    chat_model_to_use (some "llama3.2:1b")
      (.ok [("preferred_model", "llama3.2:1b")]) = "llama3.2:1b" ∧
    "llama3.2:1b" ∈ AVAILABLE_MODELS := by
  refine ⟨by decide, by decide⟩

/-- C10 (amended): whenever the request model is absent, empty or equal
to "llama3.2:1b", the model used is the stored preferred model — or
"gemma3:1b" when preferences cannot be loaded — so an explicit
"llama3.2:1b" request yields that exact model only when it is also the
stored preference; any other non-empty explicitly requested model
string is used unchanged. -/
theorem claim_C10 :
    ∀ (load : Except PyError (List (String × String))) (s : String),
    chat_model_to_use none load = preferred_model_of load ∧
    chat_model_to_use (some "") load = preferred_model_of load ∧
    chat_model_to_use (some "llama3.2:1b") load = preferred_model_of load ∧
    (s ≠ "" → s ≠ "llama3.2:1b" → chat_model_to_use (some s) load = s) ∧
    preferred_model_of (.error .runtimeError) = "gemma3:1b" := by
  intro load s
  refine ⟨rfl, rfl, rfl, ?_, rfl⟩
  intro h1 h2
  have he : s.isEmpty = false := by
    cases hs : s.isEmpty
    · rfl
    · exact absurd ((String.isEmpty_iff s).mp hs) h1
  have hb : (some s == some "llama3.2:1b") = false := by
    rw [beq_eq_false_iff_ne]
    intro hc
    exact h2 (Option.some.injEq s "llama3.2:1b" ▸ congrArg (Option.getD · "") hc)
  rw [chat_model_to_use, py_truthy, he, hb]
  rfl

/-- Witness for C10: an explicitly requested non-default model is used
unchanged. -/
theorem claim_C10_witness :
    chat_model_to_use (some "gemma3:4b")
      (.ok [("preferred_model", "qwen3:4b")]) = "gemma3:4b" :=
  (claim_C10 (.ok [("preferred_model", "qwen3:4b")]) "gemma3:4b").2.2.2.1
    (by decide) (by decide)

end YDA4

